import Mathlib

/-!
Shallow embedding of the OpenRVDAS `InMemoryServerAPI` configuration store
(`logger/utils/server_api.py`) and proofs about its operations.

Python dicts are modelled as insertion-ordered association lists with
first-match lookup, position-preserving assignment, and key removal.
Python exceptions are modelled as an explicit error type carried alongside
the post-raise state, since a raised exception in Python does not roll back
mutations already applied to `self`.
-/

/-- Errors the Python code can raise: `ValueError` from explicit raises,
`TypeError` from a malformed format expression, `NameError` from a
reference to an undefined variable name. -/
inductive PyError where
  | valueError (msg : String)
  | typeError (msg : String)
  | nameError (name : String)
deriving DecidableEq, Repr

/-- Association-list model of a Python dict. -/
abbrev Dict (κ α : Type) := List (κ × α)

/-- Model of `d.get(k, None)`: first-match lookup. -/
def dget {κ α : Type} [DecidableEq κ] : Dict κ α → κ → Option α
  | [], _ => none
  | (k', v) :: rest, k => if k' = k then some v else dget rest k

/-- Model of `d[k] = v`: replace in place if the key exists, else append. -/
def dset {κ α : Type} [DecidableEq κ] : Dict κ α → κ → α → Dict κ α
  | [], k, v => [(k, v)]
  | (k', v') :: rest, k, v =>
      if k' = k then (k, v) :: rest else (k', v') :: dset rest k v

/-- Model of `del d[k]`: drop every binding of the key. -/
def ddel {κ α : Type} [DecidableEq κ] : Dict κ α → κ → Dict κ α
  | [], _ => []
  | (k', v) :: rest, k =>
      if k' = k then ddel rest k else (k', v) :: ddel rest k

/-- Model of `list(d)`: the keys in order. -/
def dkeys {κ α : Type} (d : Dict κ α) : List κ := d.map Prod.fst

theorem dget_dset_self {κ α : Type} [DecidableEq κ] (d : Dict κ α) (k : κ) (v : α) :
    dget (dset d k v) k = some v := by
  induction d with
  | nil => simp [dset, dget]
  | cons hd tl ih =>
      obtain ⟨k', v'⟩ := hd
      by_cases h : k' = k
      · simp [dset, dget, h]
      · simp [dset, dget, h, ih]

theorem dget_dset_ne {κ α : Type} [DecidableEq κ] (d : Dict κ α) (k k' : κ) (v : α)
    (h : k' ≠ k) : dget (dset d k v) k' = dget d k' := by
  have h' : ¬k = k' := fun hh => h hh.symm
  induction d with
  | nil => simp [dset, dget, h']
  | cons hd tl ih =>
      obtain ⟨k0, v0⟩ := hd
      by_cases h0 : k0 = k
      · subst h0
        simp [dset, dget, h']
      · by_cases h1 : k0 = k'
        · subst h1
          simp [dset, dget, h0]
        · simp [dset, dget, h0, h1, ih]

theorem dget_ddel_self {κ α : Type} [DecidableEq κ] (d : Dict κ α) (k : κ) :
    dget (ddel d k) k = none := by
  induction d with
  | nil => simp [ddel, dget]
  | cons hd tl ih =>
      obtain ⟨k', v'⟩ := hd
      by_cases h : k' = k
      · simp [ddel, h, ih]
      · simp [ddel, dget, h, ih]

theorem dget_ddel_ne {κ α : Type} [DecidableEq κ] (d : Dict κ α) (k k' : κ)
    (h : k' ≠ k) : dget (ddel d k) k' = dget d k' := by
  have h' : ¬k = k' := fun hh => h hh.symm
  induction d with
  | nil => simp [ddel]
  | cons hd tl ih =>
      obtain ⟨k0, v0⟩ := hd
      by_cases h0 : k0 = k
      · subst h0
        simp [ddel, dget, h', ih]
      · by_cases h1 : k0 = k'
        · subst h1
          simp [ddel, dget, h0]
        · simp [ddel, dget, h0, h1, ih]

theorem ddel_of_dget_none {κ α : Type} [DecidableEq κ] (d : Dict κ α) (k : κ)
    (h : dget d k = none) : ddel d k = d := by
  induction d with
  | nil => rfl
  | cons hd tl ih =>
      obtain ⟨k', v'⟩ := hd
      by_cases h0 : k' = k
      · simp [dget, h0] at h
      · simp [dget, h0] at h
        simp [ddel, h0, ih h]

theorem dget_none_iff_not_mem_keys {κ α : Type} [DecidableEq κ] (d : Dict κ α) (k : κ) :
    dget d k = none ↔ k ∉ dkeys d := by
  induction d with
  | nil => simp [dget, dkeys]
  | cons hd tl ih =>
      obtain ⟨k', v'⟩ := hd
      by_cases h0 : k' = k
      · subst h0
        simp [dget, dkeys]
      · have h0' : ¬k = k' := fun hh => h0 hh.symm
        simp [dget, dkeys, h0, h0', ih]

theorem not_mem_keys_ddel {κ α : Type} [DecidableEq κ] (d : Dict κ α) (k : κ) :
    k ∉ dkeys (ddel d k) :=
  (dget_none_iff_not_mem_keys (ddel d k) k).mp (dget_ddel_self d k)

theorem mem_keys_dset_self {κ α : Type} [DecidableEq κ] (d : Dict κ α) (k : κ) (v : α) :
    k ∈ dkeys (dset d k v) := by
  induction d with
  | nil => simp [dset, dkeys]
  | cons hd tl ih =>
      obtain ⟨k', v'⟩ := hd
      by_cases h0 : k' = k
      · simp [dset, dkeys, h0]
      · simp only [dkeys] at ih
        simp only [dset, if_neg h0, dkeys, List.map_cons, List.mem_cons]
        exact Or.inr ih

theorem dget_some_nonempty {κ α : Type} [DecidableEq κ] (d : Dict κ α) (k : κ) (v : α)
    (h : dget d k = some v) : d.isEmpty = false := by
  cases d with
  | nil => simp [dget] at h
  | cons hd tl => simp [List.isEmpty]

/-- Reserved composite-key separator (`ID_SEPARATOR = ':'` in the source). -/
def ID_SEPARATOR : Char := ':'

/-- Opaque configuration specification: a dict the store never interprets. -/
abbrev ConfigSpec := Dict String String

/-- Model of the `cruise` sub-dict of a cruise definition: an `id` key that may
be absent, plus opaque extra keys such as `start`/`end`. -/
structure CruiseHeader where
  id : Option String
  extra : Dict String String
deriving DecidableEq, Repr

/-- Model of a logger spec dict: optional `host` restriction and the list of
valid config names under the `configs` key (absent if the key is missing). -/
structure LoggerSpec where
  host : Option String
  configs : Option (List String)
deriving DecidableEq, Repr

/-- Python truthiness of a logger-spec dict: falsy iff it has no keys. -/
def LoggerSpec.truthy (l : LoggerSpec) : Bool :=
  l.host.isSome || l.configs.isSome

/-- Model of a cruise definition dict with its five recognised top-level keys,
each `Option` to model key absence. -/
structure CruiseConfig where
  cruise : Option CruiseHeader
  loggers : Option (Dict String LoggerSpec)
  modes : Option (Dict String (Dict String String))
  default_mode : Option String
  configs : Option (Dict String ConfigSpec)
deriving DecidableEq, Repr

/-- Python truthiness of a cruise-definition dict: falsy iff it has no keys. -/
def CruiseConfig.truthy (c : CruiseConfig) : Bool :=
  c.cruise.isSome || c.loggers.isSome || c.modes.isSome ||
    c.default_mode.isSome || c.configs.isSome

/-- State of `InMemoryServerAPI`: the five instance dicts set up in
`__init__`. Callback keys are `Option String` because registrations may be
filed under the wildcard scope `None`; a callback itself is modelled by an
opaque numeric identity plus its kwargs dict, since the store only ever
stores and invokes them. Status entries pair a timestamp tick with the
opaque payload. -/
structure ApiState where
  cruise_configs : Dict String CruiseConfig
  mode : Dict String String
  logger_config : Dict String (Dict String String)
  callbacks : Dict (Option String) (List (Nat × Dict String String))
  status : List (Nat × Dict String String)
deriving DecidableEq, Repr

/-- Fresh store: all tables empty, as in `InMemoryServerAPI.__init__`. -/
def emptyApiState : ApiState :=
  { cruise_configs := [], mode := [], logger_config := [], callbacks := [],
    status := [] }

/-- Embedding of `get_cruises` (line 323): `list(self.cruise_configs)`. -/
def get_cruises (s : ApiState) : List String := dkeys s.cruise_configs

/-- Embedding of `get_cruise_config` (lines 328-333): `.get` then a
truthiness test, raising `ValueError` for an absent or falsy entry. -/
def get_cruise_config (s : ApiState) (cruise_id : String) :
    Except PyError CruiseConfig :=
  match dget s.cruise_configs cruise_id with
  | none => .error (.valueError ("No such cruise found: " ++ cruise_id))
  | some cc =>
      if cc.truthy then .ok cc
      else .error (.valueError ("No such cruise found: " ++ cruise_id))

/-- Embedding of `get_loggers` (lines 354-362): fetch the cruise config,
then its `loggers` key; `None` or an empty dict raises `ValueError`. -/
def get_loggers (s : ApiState) (cruise_id : String) :
    Except PyError (Dict String LoggerSpec) :=
  match get_cruise_config s cruise_id with
  | .error e => .error e
  | .ok cc =>
      match cc.loggers with
      | none => .error (.valueError ("No loggers found in cruise " ++ cruise_id))
      | some lgs =>
          if lgs.isEmpty then
            .error (.valueError ("No loggers found in cruise " ++ cruise_id))
          else .ok lgs

/-- Embedding of `get_logger` (lines 365-371). The parameter is named
`logger`, but the return statement reads `loggers.get(logger_id)` where no
`logger_id` is in scope, so the success path raises
`NameError: name logger_id is not defined`; only the two failure paths
behave as documented. -/
def get_logger (s : ApiState) (cruise_id logger : String) :
    Except PyError LoggerSpec :=
  match get_loggers s cruise_id with
  | .error e => .error e
  | .ok lgs =>
      match dget lgs logger with
      | none =>
          .error (.valueError
            ("No logger " ++ logger ++ " found in cruise " ++ cruise_id))
      | some _ => .error (.nameError "logger_id")

/-- Embedding of the `cruise_id and mode` branch of `get_configs`
(lines 379-390): validate the cruise, its `modes` key and the requested
mode, then return that mode's raw logger-to-config-name mapping. -/
def get_configs_with_mode (s : ApiState) (cruise_id mode : String) :
    Except PyError (Dict String String) :=
  match get_cruise_config s cruise_id with
  | .error e => .error e
  | .ok cc =>
      match cc.modes with
      | none => .error (.valueError ("Cruise " ++ cruise_id ++ " has no modes??"))
      | some modes =>
          if modes.isEmpty then
            .error (.valueError ("Cruise " ++ cruise_id ++ " has no modes??"))
          else
            match dget modes mode with
            | none =>
                .error (.valueError
                  ("Cruise " ++ cruise_id ++ " has no mode " ++ mode))
            | some mm => .ok mm

/-- Embedding of `get_config` (lines 409-451). With `mode` omitted it reads
the live `self.logger_config` table and returns `configs.get(config_name,
None)` (no error for an unknown name). With `mode` given, it validates the
cruise's `modes` key and the mode itself (an `is None` test, so an empty
mode dict passes), and then line 443 reads
`logger_config_dict.get(logger, None)` where no `logger` is in scope — the
parameter is `logger_id` — so that branch raises
`NameError: name logger is not defined`; lines 444-451 are unreachable. -/
def get_config (s : ApiState) (cruise_id logger_id : String)
    (mode : Option String) : Except PyError (Option ConfigSpec) :=
  match get_cruise_config s cruise_id with
  | .error e => .error e
  | .ok cc =>
      match cc.configs with
      | none =>
          .error (.valueError ("Cruise " ++ cruise_id ++ " has no configs?!?"))
      | some configs =>
          if configs.isEmpty then
            .error (.valueError ("Cruise " ++ cruise_id ++ " has no configs?!?"))
          else
            match mode with
            | none =>
                match dget s.logger_config cruise_id with
                | none =>
                    .error (.valueError
                      ("No config defined for cruise " ++ cruise_id ++ "?!?"))
                | some lc =>
                    if lc.isEmpty then
                      .error (.valueError
                        ("No config defined for cruise " ++ cruise_id ++ "?!?"))
                    else
                      match dget lc logger_id with
                      | none => .ok none
                      | some config_name => .ok (dget configs config_name)
            | some m =>
                match cc.modes with
                | none =>
                    .error (.valueError
                      ("Cruise " ++ cruise_id ++ " has no modes?!?"))
                | some cruise_modes =>
                    if cruise_modes.isEmpty then
                      .error (.valueError
                        ("Cruise " ++ cruise_id ++ " has no modes?!?"))
                    else
                      match dget cruise_modes m with
                      | none =>
                          .error (.valueError
                            ("Cruise " ++ cruise_id ++ " has no mode " ++ m))
                      | some _ => .error (.nameError "logger")

/-- Embedding of `set_mode` (lines 457-484). All validation happens before
any assignment; on success it sets `self.mode[cruise_id]` and replaces
`self.logger_config[cruise_id]` with `modes[mode].copy()` — the copy is
modelled by passing the mapping by value. A raise leaves the state as it
was, so the error is returned together with the unchanged state. -/
def set_mode (s : ApiState) (cruise_id mode : String) :
    Option PyError × ApiState :=
  match get_cruise_config s cruise_id with
  | .error e => (some e, s)
  | .ok cc =>
      match cc.modes with
      | none =>
          (some (.valueError ("Cruise " ++ cruise_id ++ " has no modes??")), s)
      | some modes =>
          if modes.isEmpty then
            (some (.valueError ("Cruise " ++ cruise_id ++ " has no modes??")), s)
          else
            match dget modes mode with
            | none =>
                (some (.valueError
                  ("Cruise " ++ cruise_id ++ " has no mode " ++ mode)), s)
            | some mm =>
                (none,
                  { s with
                      mode := dset s.mode cruise_id mode,
                      logger_config := dset s.logger_config cruise_id mm })

/-- Embedding of `set_logger_config` (lines 487-512). The chain of checks
(cruise present and truthy, `loggers` key truthy, logger spec truthy,
`configs` key truthy, membership of the requested config) all precede the
assignment; then `self.logger_config[cruise_id]` is created as `{}` when the
key is absent and its `logger` entry is set to `config`. -/
def set_logger_config (s : ApiState) (cruise_id logger config : String) :
    Option PyError × ApiState :=
  match get_cruise_config s cruise_id with
  | .error e => (some e, s)
  | .ok cc =>
      match cc.loggers with
      | none =>
          (some (.valueError ("Cruise " ++ cruise_id ++ " has no loggers??")), s)
      | some loggers =>
          if loggers.isEmpty then
            (some (.valueError
              ("Cruise " ++ cruise_id ++ " has no loggers??")), s)
          else
            match dget loggers logger with
            | none =>
                (some (.valueError
                  ("Cruise " ++ cruise_id ++ " has no logger " ++ logger)), s)
            | some logger_spec =>
                if !logger_spec.truthy then
                  (some (.valueError
                    ("Cruise " ++ cruise_id ++ " has no logger " ++ logger)), s)
                else
                  match logger_spec.configs with
                  | none =>
                      (some (.valueError
                        ("Logger " ++ logger ++ " in cruise " ++ cruise_id ++
                          " has no configs??")), s)
                  | some configs =>
                      if configs.isEmpty then
                        (some (.valueError
                          ("Logger " ++ logger ++ " in cruise " ++ cruise_id ++
                            " has no configs??")), s)
                      else
                        if config ∈ configs then
                          let lc0 := s.logger_config
                          let lc1 :=
                            if (dget lc0 cruise_id).isSome then lc0
                            else dset lc0 cruise_id []
                          let tbl := (dget lc1 cruise_id).getD []
                          (none,
                            { s with
                                logger_config :=
                                  dset lc1 cruise_id (dset tbl logger config) })
                        else
                          (some (.valueError
                            ("Config " ++ config ++ " not valid for logger " ++
                              logger ++ " in cruise " ++ cruise_id)), s)

/-- Embedding of `on_update` (lines 524-530): create the scope's list when
the key is absent, default the kwargs to `{}`, and append the pair. -/
def on_update (s : ApiState) (callback : Nat)
    (kwargs : Option (Dict String String)) (cruise_id : Option String) :
    ApiState :=
  let cbs0 := s.callbacks
  let cbs1 :=
    if (dget cbs0 cruise_id).isSome then cbs0 else dset cbs0 cruise_id []
  let lst := (dget cbs1 cruise_id).getD []
  { s with
      callbacks := dset cbs1 cruise_id (lst ++ [(callback, kwargs.getD [])]) }

/-- Embedding of the per-scope block of `signal_update` (lines 535-539).
The `callback(**kwargs)` call on line 539 is indented at the level of the
`if`, outside the `for` loop whose body is only a `logging.debug`, so after
the loop finishes only the loop variables' final values are applied: exactly
the last-registered callback of the scope is invoked. An empty list would
leave `callback` unbound (`NameError`); `on_update` never creates one. The
result is the trace of (callback, kwargs) invocations actually performed. -/
def signal_update_scope (s : ApiState) (cruise_id : Option String) :
    Except PyError (List (Nat × Dict String String)) :=
  match dget s.callbacks cruise_id with
  | none => .ok []
  | some lst =>
      match lst.getLast? with
      | none => .error (.nameError "callback")
      | some cb => .ok [cb]

/-- Embedding of `signal_update` (lines 533-546): run the block for the
given scope, and if `cruise_id` was not `None`, recurse once with
`cruise_id=None` to also run the wildcard scope's block. -/
def signal_update (s : ApiState) (cruise_id : Option String) :
    Except PyError (List (Nat × Dict String String)) :=
  match signal_update_scope s cruise_id with
  | .error e => .error e
  | .ok first =>
      match cruise_id with
      | none => .ok first
      | some _ =>
          match signal_update_scope s none with
          | .error e => .error e
          | .ok second => .ok (first ++ second)

/-- Embedding of `load_cruise` (lines 559-575). When the definition lacks a
`cruise.id`, line 565 reads the undefined name `cruise_configs`
(`NameError`). When the derived id contains `ID_SEPARATOR`, the raise on
lines 568-569 evaluates the expression
`'Illegal character "%s" in cruise id: "%s"' % ID_SEPARATOR`, a two-slot
format applied to a single value, which raises
`TypeError: not enough arguments for format string` before the intended
`ValueError` is even constructed — still before any mutation. Otherwise the
definition is installed (replacing any prior entry) and, when a
`default_mode` key is present, `set_mode` runs on the updated store. -/
def load_cruise (s : ApiState) (cruise_config : CruiseConfig) :
    Option PyError × ApiState :=
  match cruise_config.cruise with
  | none => (some (.nameError "cruise_configs"), s)
  | some hdr =>
      match hdr.id with
      | none => (some (.nameError "cruise_configs"), s)
      | some cruise_id =>
          if cruise_id.data.contains ID_SEPARATOR then
            (some (.typeError "not enough arguments for format string"), s)
          else
            let s1 :=
              { s with
                  cruise_configs :=
                    dset s.cruise_configs cruise_id cruise_config }
            match cruise_config.default_mode with
            | some dm => set_mode s1 cruise_id dm
            | none => (none, s1)

/-- Embedding of `delete_cruise` (lines 578-590): each of the four tables
drops its entry for the id when present; an unknown id in the first table
only logs. The function cannot raise. -/
def delete_cruise (s : ApiState) (cruise_id : String) : ApiState :=
  { cruise_configs :=
      if (dget s.cruise_configs cruise_id).isSome then
        ddel s.cruise_configs cruise_id
      else s.cruise_configs,
    mode :=
      if (dget s.mode cruise_id).isSome then ddel s.mode cruise_id else s.mode,
    logger_config :=
      if (dget s.logger_config cruise_id).isSome then
        ddel s.logger_config cruise_id
      else s.logger_config,
    callbacks :=
      if (dget s.callbacks (some cruise_id)).isSome then
        ddel s.callbacks (some cruise_id)
      else s.callbacks,
    status := s.status }

/-- Path condition of `set_mode`: the cruise is loaded and truthy, its
`modes` key is truthy, and the requested mode is a key of it — exactly the
checks on lines 459-466. -/
def modeDefined (s : ApiState) (cruise_id mode : String) : Bool :=
  match dget s.cruise_configs cruise_id with
  | none => false
  | some cc =>
      cc.truthy &&
        match cc.modes with
        | none => false
        | some modes => !modes.isEmpty && (dget modes mode).isSome

/-- Live current-configuration name of one logger: the entry of
`self.logger_config[cruise_id]` for it, if any. -/
def lookupLC (s : ApiState) (cruise_id logger : String) : Option String :=
  match dget s.logger_config cruise_id with
  | none => none
  | some tbl => dget tbl logger

/-- Well-formedness of a definition's `default_mode` key for `load_cruise`:
either absent, or naming a mode of the definition (so the mode switch that
`load_cruise` triggers succeeds). -/
def defaultModeOk (cc : CruiseConfig) : Bool :=
  match cc.default_mode with
  | none => true
  | some dm =>
      match cc.modes with
      | none => false
      | some modes => (dget modes dm).isSome

instance {ε α : Type} [DecidableEq ε] [DecidableEq α] :
    DecidableEq (Except ε α) := fun a b =>
  match a, b with
  | .error e1, .error e2 =>
      if h : e1 = e2 then isTrue (by rw [h])
      else isFalse (fun hh => h (by injection hh))
  | .ok v1, .ok v2 =>
      if h : v1 = v2 then isTrue (by rw [h])
      else isFalse (fun hh => h (by injection hh))
  | .error _, .ok _ => isFalse (fun hh => Except.noConfusion hh)
  | .ok _, .error _ => isFalse (fun hh => Except.noConfusion hh)

/-- The sample cruise of the source docstring, shortened to two loggers,
two modes and two configs as in the spec's scenario. -/
def exampleCC : CruiseConfig :=
  { cruise := some { id := some "NBP1700", extra := [("start", "2017-01-01")] },
    loggers := some
      [("knud", { host := some "knud.pi", configs := some ["off", "net"] }),
       ("gyr1", { host := none, configs := some ["off", "net"] })],
    modes := some
      [("off", [("knud", "off"), ("gyr1", "off")]),
       ("port", [("knud", "off"), ("gyr1", "net")])],
    default_mode := some "off",
    configs := some [("off", []), ("net", [("x", "1")])] }

/-- Store holding `exampleCC`, as produced by `load_cruise` on a fresh
store: definition installed and the default mode applied. -/
def exampleState : ApiState :=
  { cruise_configs := [("NBP1700", exampleCC)],
    mode := [("NBP1700", "off")],
    logger_config := [("NBP1700", [("knud", "off"), ("gyr1", "off")])],
    callbacks := [],
    status := [] }

example : load_cruise emptyApiState exampleCC = (none, exampleState) := by decide
example : get_cruise_config exampleState "NBP1700" = .ok exampleCC := by decide
example : (set_mode exampleState "NBP1700" "port").1 = none := by decide
example :
    dget (set_mode exampleState "NBP1700" "port").2.logger_config "NBP1700" =
      some [("knud", "off"), ("gyr1", "net")] := by decide
example :
    get_logger exampleState "NBP1700" "knud" = .error (.nameError "logger_id") := by
  decide
example :
    get_config exampleState "NBP1700" "gyr1" (some "port") =
      .error (.nameError "logger") := by decide
example :
    get_config exampleState "NBP1700" "gyr1" none = .ok (some []) := by decide

/-- Store with callbacks 1 and 2 registered under scope `"X"` (in that
order), 3 and 4 under the wildcard scope, and 5 under scope `"Y"`. -/
def cbState : ApiState :=
  on_update
    (on_update
      (on_update
        (on_update
          (on_update emptyApiState 1 none (some "X"))
          2 none (some "X"))
        3 none none)
      4 none none)
    5 none (some "Y")

/-- C1: with callbacks 1,2 under scope X, 3,4 under the wildcard and 5 under
scope Y, `signal_update("X")` invokes only callbacks 2 and 4 — the
last-registered one of each matching scope — because the invocation on line
539 sits outside the for loop; callbacks 1 and 3 are never invoked, refuting
"every callback ... each exactly once and in registration order".
Likewise `signal_update(None)` invokes only 4, and a scope with no
registrations still triggers only the last wildcard callback. -/
theorem signal_update_invokes_only_last_callback :
    signal_update cbState (some "X") = .ok [(2, []), (4, [])] ∧
    signal_update cbState none = .ok [(4, [])] ∧
    signal_update cbState (some "Z") = .ok [(4, [])] :=
  ⟨by decide, by decide, by decide⟩

/-- Cruise `c` with one logger `l` whose valid configs are `off` and `k`,
one mode `m` mapping `l` to `off`, and config specs for both names. -/
def overrideCruise : CruiseConfig :=
  { cruise := some { id := some "c", extra := [] },
    loggers := some [("l", { host := none, configs := some ["off", "k"] })],
    modes := some [("m", [("l", "off")])],
    default_mode := none,
    configs := some [("off", []), ("k", [("x", "1")])] }

/-- Store holding `overrideCruise`, before any mode is set. -/
def overrideBase : ApiState :=
  { emptyApiState with cruise_configs := [("c", overrideCruise)] }

/-- State after `set_mode("c", "m")`. -/
def overrideAfterMode : ApiState := (set_mode overrideBase "c" "m").2

/-- State after the manual override `set_logger_config("c", "l", "k")`. -/
def overrideAfterSet : ApiState :=
  (set_logger_config overrideAfterMode "c" "l" "k").2

/-- C2: after `set_mode` and a manual override to `k`, the live read
`get_config(c, l)` does return the overridden config's spec, but
`get_config(c, l, mode=m)` raises `NameError` instead of returning the
mode's nominal value, because line 443 reads the undefined name `logger`
(the parameter is `logger_id`). -/
theorem get_config_mode_branch_raises_name_error :
    (set_mode overrideBase "c" "m").1 = none ∧
    (set_logger_config overrideAfterMode "c" "l" "k").1 = none ∧
    get_config overrideAfterSet "c" "l" none = .ok (some [("x", "1")]) ∧
    get_config overrideAfterSet "c" "l" (some "m") =
      .error (.nameError "logger") := by decide

/-- C5: for a logger that is defined in the cruise, `get_logger` raises
`NameError` — line 371 returns `loggers.get(logger_id)` but the parameter
is named `logger` — while the two not-found paths do raise the documented
lookup errors. -/
theorem get_logger_defined_raises_name_error :
    get_logger exampleState "NBP1700" "knud" = .error (.nameError "logger_id") ∧
    get_logger exampleState "NBP1700" "nosuch" =
      .error (.valueError "No logger nosuch found in cruise NBP1700") ∧
    get_logger exampleState "QQQ" "knud" =
      .error (.valueError "No such cruise found: QQQ") := by decide

/-- Minimal cruise definition whose id contains the reserved separator. -/
def sepCC : CruiseConfig :=
  { cruise := some { id := some "NBP:1700", extra := [] },
    loggers := none, modes := none, default_mode := none, configs := none }

/-- C7: loading a definition whose id contains `ID_SEPARATOR` raises before
any mutation — the state is returned exactly unchanged — but the error is a
`TypeError`, not the intended `ValueError`: the raise on lines 568-569
formats a two-slot string with the single value `ID_SEPARATOR`. -/
theorem load_cruise_separator_raises_type_error_unmutated :
    load_cruise exampleState sepCC =
      (some (.typeError "not enough arguments for format string"),
        exampleState) := by decide

/-- C3: when the cruise is loaded and the mode is defined for it, `set_mode`
succeeds, sets the cruise's current mode, and replaces the cruise's entire
per-logger current-configuration table with the mode's mapping (so earlier
manual overrides are gone); when the cruise or mode does not exist, it
raises and returns the state exactly unchanged. -/
theorem set_mode_meets_spec (s : ApiState) (c m : String) :
    (∀ cc modes mm,
        dget s.cruise_configs c = some cc → cc.truthy = true →
        cc.modes = some modes → dget modes m = some mm →
        (set_mode s c m).1 = none ∧
        dget (set_mode s c m).2.mode c = some m ∧
        dget (set_mode s c m).2.logger_config c = some mm) ∧
    (modeDefined s c m = false →
      (set_mode s c m).1 ≠ none ∧ (set_mode s c m).2 = s) := by
  constructor
  · intro cc modes mm hcc htr hm hmm
    have hne : modes.isEmpty = false := dget_some_nonempty modes m mm hmm
    unfold set_mode get_cruise_config
    rw [hcc]
    simp [htr, hm, hne, hmm, dget_dset_self]
  · intro hnd
    unfold modeDefined at hnd
    cases hcc : dget s.cruise_configs c with
    | none => simp [set_mode, get_cruise_config, hcc]
    | some cc =>
        rw [hcc] at hnd
        cases htr : cc.truthy with
        | false => simp [set_mode, get_cruise_config, hcc, htr]
        | true =>
            cases hm : cc.modes with
            | none => simp [set_mode, get_cruise_config, hcc, htr, hm]
            | some modes =>
                cases hne : modes.isEmpty with
                | true => simp [set_mode, get_cruise_config, hcc, htr, hm, hne]
                | false =>
                    cases hd : dget modes m with
                    | none =>
                        simp [set_mode, get_cruise_config, hcc, htr, hm, hne, hd]
                    | some mm =>
                        simp only [htr, hm, hne, hd] at hnd
                        simp at hnd

/-- C3 witness: concrete application at the sample cruise, switching from
the default mode to `port`. -/
theorem set_mode_meets_spec_witness :
    (set_mode exampleState "NBP1700" "port").1 = none ∧
    dget (set_mode exampleState "NBP1700" "port").2.mode "NBP1700" =
      some "port" ∧
    dget (set_mode exampleState "NBP1700" "port").2.logger_config "NBP1700" =
      some [("knud", "off"), ("gyr1", "net")] :=
  (set_mode_meets_spec exampleState "NBP1700" "port").1 exampleCC
    [("off", [("knud", "off"), ("gyr1", "off")]),
     ("port", [("knud", "off"), ("gyr1", "net")])]
    [("knud", "off"), ("gyr1", "net")] rfl rfl rfl rfl

/-- C4: for a loaded cruise with a defined logger, requesting a config name
outside the logger's valid-configuration set makes `set_logger_config`
raise a `ValueError` (the source's validation error) and return the store
state exactly as it was — no partial mutation. The hypothesis covers both
the absent/empty `configs` key and a name missing from a non-empty list. -/
theorem set_logger_config_invalid_rejected (s : ApiState) (c l k : String)
    (cc : CruiseConfig) (lgs : Dict String LoggerSpec) (sp : LoggerSpec)
    (hcc : dget s.cruise_configs c = some cc) (htr : cc.truthy = true)
    (hlg : cc.loggers = some lgs) (hsp : dget lgs l = some sp)
    (hsptr : sp.truthy = true)
    (hnk : ∀ cfgs, sp.configs = some cfgs → k ∉ cfgs) :
    ∃ msg, set_logger_config s c l k = (some (PyError.valueError msg), s) := by
  have hne : lgs.isEmpty = false := dget_some_nonempty lgs l sp hsp
  cases hc : sp.configs with
  | none =>
      refine ⟨"Logger " ++ l ++ " in cruise " ++ c ++ " has no configs??", ?_⟩
      simp [set_logger_config, get_cruise_config, hcc, htr, hlg, hne, hsp,
        hsptr, hc]
  | some cfgs =>
      have hk : k ∉ cfgs := hnk cfgs hc
      cases hce : cfgs.isEmpty with
      | true =>
          refine ⟨"Logger " ++ l ++ " in cruise " ++ c ++ " has no configs??", ?_⟩
          simp [set_logger_config, get_cruise_config, hcc, htr, hlg, hne, hsp,
            hsptr, hc, hce]
      | false =>
          refine ⟨"Config " ++ k ++ " not valid for logger " ++ l ++
            " in cruise " ++ c, ?_⟩
          simp [set_logger_config, get_cruise_config, hcc, htr, hlg, hne, hsp,
            hsptr, hc, hce, hk]

/-- C4 witness: requesting the unknown config name `badcfg` for logger
`knud` of the sample cruise fails with a `ValueError` and leaves the state
untouched. -/
theorem set_logger_config_invalid_rejected_witness :
    ∃ msg, set_logger_config exampleState "NBP1700" "knud" "badcfg" =
      (some (PyError.valueError msg), exampleState) :=
  set_logger_config_invalid_rejected exampleState "NBP1700" "knud" "badcfg"
    exampleCC
    [("knud", { host := some "knud.pi", configs := some ["off", "net"] }),
     ("gyr1", { host := none, configs := some ["off", "net"] })]
    { host := some "knud.pi", configs := some ["off", "net"] }
    rfl rfl rfl rfl rfl
    (by intro cfgs hcfgs
        cases hcfgs
        decide)

/-- C9: a successful `set_logger_config` for a valid config name changes
only the target logger's live current-configuration entry of the target
cruise: the cruise-definition table, the current-mode table, the callback
table and the status log are untouched, every other logger's live entry in
the same cruise is unchanged, and every other cruise's live table is
unchanged. -/
theorem set_logger_config_valid_updates_only_target (s : ApiState)
    (c l k : String) (cc : CruiseConfig) (lgs : Dict String LoggerSpec)
    (sp : LoggerSpec) (cfgs : List String)
    (hcc : dget s.cruise_configs c = some cc) (htr : cc.truthy = true)
    (hlg : cc.loggers = some lgs) (hsp : dget lgs l = some sp)
    (hcf : sp.configs = some cfgs) (hk : k ∈ cfgs) :
    (set_logger_config s c l k).1 = none ∧
    (set_logger_config s c l k).2.cruise_configs = s.cruise_configs ∧
    (set_logger_config s c l k).2.mode = s.mode ∧
    (set_logger_config s c l k).2.callbacks = s.callbacks ∧
    (set_logger_config s c l k).2.status = s.status ∧
    lookupLC (set_logger_config s c l k).2 c l = some k ∧
    (∀ x, x ≠ l → lookupLC (set_logger_config s c l k).2 c x = lookupLC s c x) ∧
    (∀ d, d ≠ c →
      dget (set_logger_config s c l k).2.logger_config d =
        dget s.logger_config d) := by
  have hne : lgs.isEmpty = false := dget_some_nonempty lgs l sp hsp
  have hsptr : sp.truthy = true := by simp [LoggerSpec.truthy, hcf]
  have hcfne : cfgs.isEmpty = false := by
    cases cfgs with
    | nil => simp at hk
    | cons a t => simp [List.isEmpty]
  have hres : (set_logger_config s c l k).2 =
      { s with
          logger_config :=
            dset
              (if (dget s.logger_config c).isSome then s.logger_config
               else dset s.logger_config c [])
              c
              (dset
                ((dget
                  (if (dget s.logger_config c).isSome then s.logger_config
                   else dset s.logger_config c []) c).getD [])
                l k) } := by
    simp [set_logger_config, get_cruise_config, hcc, htr, hlg, hne, hsp,
      hsptr, hcf, hcfne, hk]
  have hfst : (set_logger_config s c l k).1 = none := by
    simp [set_logger_config, get_cruise_config, hcc, htr, hlg, hne, hsp,
      hsptr, hcf, hcfne, hk]
  refine ⟨hfst, by rw [hres], by rw [hres], by rw [hres], by rw [hres],
    ?_, ?_, ?_⟩
  · rw [hres]
    unfold lookupLC
    cases hls : dget s.logger_config c with
    | none =>
        simp only [hls, Option.isSome_none, Bool.false_eq_true, if_false]
        rw [dget_dset_self, dget_dset_self]
        simp [dget_dset_self]
    | some tbl =>
        simp only [hls, Option.isSome_some, if_true]
        rw [dget_dset_self]
        simp [hls, dget_dset_self]
  · intro x hx
    rw [hres]
    unfold lookupLC
    cases hls : dget s.logger_config c with
    | none =>
        simp only [hls, Option.isSome_none, Bool.false_eq_true, if_false]
        rw [dget_dset_self]
        simp only [hls, dget_dset_self, Option.getD_some]
        rw [dget_dset_ne _ _ _ _ hx]
        simp [dget]
    | some tbl =>
        simp only [hls, Option.isSome_some, if_true]
        rw [dget_dset_self]
        simp only [hls, Option.getD_some]
        rw [dget_dset_ne _ _ _ _ hx]
  · intro d hd
    rw [hres]
    cases hls : dget s.logger_config c with
    | none =>
        simp only [hls, Option.isSome_none, Bool.false_eq_true, if_false]
        rw [dget_dset_ne _ _ _ _ hd, dget_dset_ne _ _ _ _ hd]
    | some tbl =>
        simp only [hls, Option.isSome_some, if_true]
        rw [dget_dset_ne _ _ _ _ hd]

/-- C9 witness: overriding `knud` to `net` in the sample store changes only
that entry; `gyr1` and the rest of the store are untouched. -/
theorem set_logger_config_valid_witness :
    (set_logger_config exampleState "NBP1700" "knud" "net").1 = none ∧
    (set_logger_config exampleState "NBP1700" "knud" "net").2.mode =
      exampleState.mode ∧
    lookupLC (set_logger_config exampleState "NBP1700" "knud" "net").2
      "NBP1700" "knud" = some "net" ∧
    lookupLC (set_logger_config exampleState "NBP1700" "knud" "net").2
      "NBP1700" "gyr1" = lookupLC exampleState "NBP1700" "gyr1" := by
  have h := set_logger_config_valid_updates_only_target exampleState
    "NBP1700" "knud" "net" exampleCC
    [("knud", { host := some "knud.pi", configs := some ["off", "net"] }),
     ("gyr1", { host := none, configs := some ["off", "net"] })]
    { host := some "knud.pi", configs := some ["off", "net"] }
    ["off", "net"] rfl rfl rfl rfl rfl (by decide)
  exact ⟨h.1, h.2.2.1, h.2.2.2.2.2.1, h.2.2.2.2.2.2.1 "gyr1" (by decide)⟩

/-- C6: loading a valid definition — one with a `cruise.id` free of the
separator, at least one key (truthy), and a `default_mode` that, when
present, names one of its modes — succeeds, and afterwards
`get_cruise_config` on the derived id returns exactly the loaded definition
(full replacement of any prior entry under the same id, never a merge,
since this holds for every starting state `s`) and `get_cruises` contains
the id. -/
theorem load_cruise_installs_replacing (s : ApiState) (cc : CruiseConfig)
    (hdr : CruiseHeader) (i : String)
    (hhdr : cc.cruise = some hdr) (hid : hdr.id = some i)
    (hsep : i.data.contains ID_SEPARATOR = false)
    (htr : cc.truthy = true) (hdm : defaultModeOk cc = true) :
    (load_cruise s cc).1 = none ∧
    dget (load_cruise s cc).2.cruise_configs i = some cc ∧
    get_cruise_config (load_cruise s cc).2 i = .ok cc ∧
    i ∈ get_cruises (load_cruise s cc).2 := by
  have hsep' : ID_SEPARATOR ∉ i.data := by simpa using hsep
  unfold defaultModeOk at hdm
  cases hdm0 : cc.default_mode with
  | none =>
      have hres : load_cruise s cc =
          (none,
            { s with cruise_configs := dset s.cruise_configs i cc }) := by
        simp [load_cruise, hhdr, hid, hsep, hsep', hdm0]
      rw [hres]
      refine ⟨rfl, dget_dset_self _ _ _, ?_, ?_⟩
      · simp [get_cruise_config, dget_dset_self, htr]
      · exact mem_keys_dset_self _ _ _
  | some dm =>
      rw [hdm0] at hdm
      cases hmodes : cc.modes with
      | none => rw [hmodes] at hdm; exact absurd hdm (by simp)
      | some modes =>
          rw [hmodes] at hdm
          dsimp only at hdm
          obtain ⟨mm, hmm⟩ := Option.isSome_iff_exists.mp hdm
          have hne : modes.isEmpty = false := dget_some_nonempty modes dm mm hmm
          have hres : load_cruise s cc =
              (none,
                { s with
                    cruise_configs := dset s.cruise_configs i cc,
                    mode := dset s.mode i dm,
                    logger_config := dset s.logger_config i mm }) := by
            simp [load_cruise, hhdr, hid, hsep, hsep', hdm0, set_mode,
              get_cruise_config, dget_dset_self, htr, hmodes, hne, hmm]
          rw [hres]
          refine ⟨rfl, dget_dset_self _ _ _, ?_, ?_⟩
          · simp [get_cruise_config, dget_dset_self, htr]
          · exact mem_keys_dset_self _ _ _

/-- C6 witness: reloading the sample definition over a store that already
holds a different definition under the same id fully replaces that entry. -/
theorem load_cruise_installs_replacing_witness :
    (load_cruise
      { emptyApiState with cruise_configs := [("NBP1700", overrideCruise)] }
      exampleCC).1 = none ∧
    dget (load_cruise
      { emptyApiState with cruise_configs := [("NBP1700", overrideCruise)] }
      exampleCC).2.cruise_configs "NBP1700" = some exampleCC ∧
    get_cruise_config (load_cruise
      { emptyApiState with cruise_configs := [("NBP1700", overrideCruise)] }
      exampleCC).2 "NBP1700" = .ok exampleCC ∧
    "NBP1700" ∈ get_cruises (load_cruise
      { emptyApiState with cruise_configs := [("NBP1700", overrideCruise)] }
      exampleCC).2 :=
  load_cruise_installs_replacing
    { emptyApiState with cruise_configs := [("NBP1700", overrideCruise)] }
    exampleCC { id := some "NBP1700", extra := [("start", "2017-01-01")] }
    "NBP1700" rfl rfl (by decide) (by decide) (by decide)

theorem guarded_ddel_eq {κ α : Type} [DecidableEq κ] (d : Dict κ α) (k : κ) :
    (if (dget d k).isSome then ddel d k else d) = ddel d k := by
  cases h : dget d k with
  | none => simp [ddel_of_dget_none d k h]
  | some v => simp

theorem delete_cruise_eq (s : ApiState) (c : String) :
    delete_cruise s c =
      { cruise_configs := ddel s.cruise_configs c,
        mode := ddel s.mode c,
        logger_config := ddel s.logger_config c,
        callbacks := ddel s.callbacks (some c),
        status := s.status } := by
  unfold delete_cruise
  rw [guarded_ddel_eq, guarded_ddel_eq, guarded_ddel_eq, guarded_ddel_eq]

/-- Store with a single observer registered under scope `"X"` while no
cruise named `"X"` (or any cruise at all) is loaded. -/
def unknownScopeState : ApiState := on_update emptyApiState 7 none (some "X")

/-- C8 counterexample: with cruise id `"X"` unknown to the store but an
observer registered under that scope, `delete_cruise("X")` does not leave
the state unchanged — it removes the observer registration — refuting the
claim that deleting an unknown id leaves all state unchanged. -/
theorem delete_cruise_unknown_removes_observers :
    dget unknownScopeState.cruise_configs "X" = none ∧
    unknownScopeState.callbacks = [(some "X", [(7, [])])] ∧
    (delete_cruise unknownScopeState "X").callbacks = [] ∧
    delete_cruise unknownScopeState "X" ≠ unknownScopeState :=
  ⟨by decide, by decide, by decide, by decide⟩

/-- C8 amended: `delete_cruise` never raises (it is total), removes the id
from `get_cruises`, clears the cruise's current mode, live per-logger table
and scoped observer registrations, leaves the status log alone, leaves each
of the cruise, mode and per-logger tables unchanged whenever that table has
no entry for the id — so a fully unknown id changes nothing except that
observer registrations under the id's scope are still removed — and a
repeated delete of the same id is a no-op. -/
theorem delete_cruise_amended_spec (s : ApiState) (c : String) :
    c ∉ get_cruises (delete_cruise s c) ∧
    dget (delete_cruise s c).mode c = none ∧
    dget (delete_cruise s c).logger_config c = none ∧
    dget (delete_cruise s c).callbacks (some c) = none ∧
    (delete_cruise s c).status = s.status ∧
    (dget s.cruise_configs c = none →
      (delete_cruise s c).cruise_configs = s.cruise_configs) ∧
    (dget s.mode c = none → (delete_cruise s c).mode = s.mode) ∧
    (dget s.logger_config c = none →
      (delete_cruise s c).logger_config = s.logger_config) ∧
    (delete_cruise s c).callbacks = ddel s.callbacks (some c) ∧
    delete_cruise (delete_cruise s c) c = delete_cruise s c := by
  rw [delete_cruise_eq]
  refine ⟨not_mem_keys_ddel _ _, dget_ddel_self _ _, dget_ddel_self _ _,
    dget_ddel_self _ _, rfl, ?_, ?_, ?_, rfl, ?_⟩
  · intro h
    exact ddel_of_dget_none _ _ h
  · intro h
    exact ddel_of_dget_none _ _ h
  · intro h
    exact ddel_of_dget_none _ _ h
  · rw [delete_cruise_eq]
    simp only
    rw [ddel_of_dget_none _ _ (dget_ddel_self s.cruise_configs c),
      ddel_of_dget_none _ _ (dget_ddel_self s.mode c),
      ddel_of_dget_none _ _ (dget_ddel_self s.logger_config c),
      ddel_of_dget_none _ _ (dget_ddel_self s.callbacks (some c))]

/-- C8 witness: the amended theorem applied to the sample store (loaded
cruise removed along with its derived state, second delete a no-op) and to
the empty store with an unknown id (every table left unchanged). -/
theorem delete_cruise_amended_spec_witness :
    "NBP1700" ∉ get_cruises (delete_cruise exampleState "NBP1700") ∧
    dget (delete_cruise exampleState "NBP1700").mode "NBP1700" = none ∧
    delete_cruise (delete_cruise exampleState "NBP1700") "NBP1700" =
      delete_cruise exampleState "NBP1700" ∧
    (delete_cruise emptyApiState "Z").cruise_configs =
      emptyApiState.cruise_configs ∧
    (delete_cruise emptyApiState "Z").mode = emptyApiState.mode := by
  have h1 := delete_cruise_amended_spec exampleState "NBP1700"
  have h2 := delete_cruise_amended_spec emptyApiState "Z"
  exact ⟨h1.1, h1.2.1, h1.2.2.2.2.2.2.2.2.2, h2.2.2.2.2.2.1 rfl,
    h2.2.2.2.2.2.2.1 rfl⟩

/-- A mode switch or per-logger override, the two desired-state mutations. -/
inductive StoreOp where
  | switchMode (cruise_id mode : String)
  | overrideLogger (cruise_id logger config : String)
deriving DecidableEq, Repr

/-- Apply one operation, keeping the post-call state whether or not the
call raised (a raised Python exception does not roll back `self`). -/
def applyOp (s : ApiState) : StoreOp → ApiState
  | .switchMode c m => (set_mode s c m).2
  | .overrideLogger c l k => (set_logger_config s c l k).2

/-- Apply a sequence of operations left to right. -/
def applyOps (s : ApiState) (ops : List StoreOp) : ApiState :=
  ops.foldl applyOp s

theorem set_mode_cruise_configs_eq (s : ApiState) (c m : String) :
    (set_mode s c m).2.cruise_configs = s.cruise_configs := by
  unfold set_mode
  repeat' split
  all_goals rfl

theorem set_logger_config_cruise_configs_eq (s : ApiState) (c l k : String) :
    (set_logger_config s c l k).2.cruise_configs = s.cruise_configs := by
  unfold set_logger_config
  repeat' split
  all_goals rfl

theorem applyOp_cruise_configs_eq (s : ApiState) (op : StoreOp) :
    (applyOp s op).cruise_configs = s.cruise_configs := by
  cases op with
  | switchMode c m => exact set_mode_cruise_configs_eq s c m
  | overrideLogger c l k => exact set_logger_config_cruise_configs_eq s c l k

theorem applyOps_cruise_configs_eq (ops : List StoreOp) (s : ApiState) :
    (applyOps s ops).cruise_configs = s.cruise_configs := by
  induction ops generalizing s with
  | nil => rfl
  | cons op rest ih =>
      calc (applyOps s (op :: rest)).cruise_configs
          = (applyOps (applyOp s op) rest).cruise_configs := rfl
        _ = (applyOp s op).cruise_configs := ih (applyOp s op)
        _ = s.cruise_configs := applyOp_cruise_configs_eq s op

theorem get_configs_with_mode_congr (s s' : ApiState)
    (h : s.cruise_configs = s'.cruise_configs) (c m : String) :
    get_configs_with_mode s c m = get_configs_with_mode s' c m := by
  unfold get_configs_with_mode get_cruise_config
  rw [h]

/-- C10: `set_mode` installs the mode's mapping by value (the source's
`.copy()`), and `set_logger_config` rebinds an entry of that live table
only, so no sequence of mode switches and per-logger overrides performed
after `load_cruise(D)` ever mutates a stored cruise definition: the whole
cruise-definition table — including every mode's nominal mapping inside
`D` — is exactly what `load_cruise` left, and `get_configs(c, mode=m)`
still returns the same nominal mapping it returned before the sequence. -/
theorem mutations_never_touch_cruise_definitions (s0 : ApiState)
    (D : CruiseConfig) (ops : List StoreOp) (c m : String) :
    (applyOps (load_cruise s0 D).2 ops).cruise_configs =
      (load_cruise s0 D).2.cruise_configs ∧
    get_configs_with_mode (applyOps (load_cruise s0 D).2 ops) c m =
      get_configs_with_mode (load_cruise s0 D).2 c m := by
  refine ⟨applyOps_cruise_configs_eq ops _, ?_⟩
  exact get_configs_with_mode_congr _ _ (applyOps_cruise_configs_eq ops _) c m
